import Mathlib

/-!
Verification of the property-listing caching core: the cache manager
(`get_all_properties` in `properties/utils.py`), the invalidation trigger
(the signal handlers in `properties/signals.py`), the metrics reporter
(`get_redis_cache_metrics` in `properties/utils.py`) and the listing view
(`property_list` in `properties/views.py`), embedded shallowly.

The cache backend is modelled as an association list mapping keys to a
stored value together with the TTL it was stored with; `cache_get`,
`cache_set` and `cache_delete` model the Django low-level cache API calls
used by the source.  Effects of `get_all_properties` (record-store reads,
cache writes) are made explicit in its result so that frame conditions can
be stated.
-/

namespace PropertyListings

/-- Modelled from the spec: `properties/models.py` is absent from the
sources.  Per the spec's data model, a Property Record carries an identity
(unique id), title (text), description (text), price (decimal), location
(text) and an immutable created-at timestamp. -/
structure PropertyRecord where
  id : Nat
  title : String
  description : String
  price : Int
  location : String
  created_at : Nat
  deriving DecidableEq

/-- The projection built by
`Property.objects.all().values("id", "title", "description", "price",
"location", "created_at")` in `get_all_properties`: exactly the six listed
fields, nothing else. -/
structure PropProjection where
  id : Nat
  title : String
  description : String
  price : Int
  location : String
  created_at : Nat
  deriving DecidableEq

/-- The field projection applied to each record fetched from the store. -/
def project (r : PropertyRecord) : PropProjection :=
  { id := r.id, title := r.title, description := r.description,
    price := r.price, location := r.location, created_at := r.created_at }

/-- The value type stored under the `all_properties` cache key. -/
abbrev CacheVal := List PropProjection

/-- The cache backend's key space: each entry maps a key to a stored value
and the TTL (in seconds) it was stored with. -/
abbrev Cache := List (String × CacheVal × Nat)

/-- `cache.get(key)`: the value under `key`, or `none` when absent. -/
def cache_get (c : Cache) (k : String) : Option CacheVal :=
  match c with
  | [] => none
  | (k', v, _) :: rest => if k' == k then some v else cache_get rest k

/-- `cache.delete(key)`: remove any entry under `key`; deleting an absent
key is a total operation, not an error. -/
def cache_delete (c : Cache) (k : String) : Cache :=
  match c with
  | [] => []
  | (k', v, ttl) :: rest =>
      if k' == k then cache_delete rest k else (k', v, ttl) :: cache_delete rest k

/-- `cache.set(key, value, ttl)`: store `value` under `key` with `ttl`,
replacing any previous entry for that key. -/
def cache_set (c : Cache) (k : String) (v : CacheVal) (ttl : Nat) : Cache :=
  (k, v, ttl) :: cache_delete c k

/-- Result of one `get_all_properties()` call: the returned sequence, the
cache state afterwards, and explicit effect counters (number of record-store
reads and of cache-backend writes performed by the call). -/
structure GetResult where
  result : CacheVal
  cache : Cache
  store_reads : Nat
  cache_writes : Nat
  deriving DecidableEq

/-- Embedding of `get_all_properties` (`properties/utils.py`): look up the
fixed key `all_properties`; on a hit (value not `None`) return the cached
value untouched; on a miss, project the whole store, cache the projection
for 3600 seconds, and return it. -/
def get_all_properties (c : Cache) (store : List PropertyRecord) : GetResult :=
  match cache_get c "all_properties" with
  | some properties =>
      { result := properties, cache := c, store_reads := 0, cache_writes := 0 }
  | none =>
      let properties := store.map project
      { result := properties,
        cache := cache_set c "all_properties" properties 3600,
        store_reads := 1, cache_writes := 1 }

/-- Embedding of `invalidate_property_cache_on_save`
(`properties/signals.py`): fired on `post_save` for both creates and
updates; unconditionally deletes the `all_properties` key.  The second
component counts the cache-delete operations the handler performs. -/
def invalidate_property_cache_on_save (inst : PropertyRecord) (created : Bool)
    (c : Cache) : Cache × Nat :=
  (cache_delete c "all_properties", 1)

/-- Embedding of `invalidate_property_cache_on_delete`
(`properties/signals.py`): fired on `post_delete`; unconditionally deletes
the `all_properties` key.  The second component counts the cache-delete
operations the handler performs. -/
def invalidate_property_cache_on_delete (inst : PropertyRecord)
    (c : Cache) : Cache × Nat :=
  (cache_delete c "all_properties", 1)

/-- Joint state of the record store and the cache backend. -/
structure SysState where
  store : List PropertyRecord
  cache : Cache
  deriving DecidableEq

/-- A mutation of a Property Record: create a record, save an existing
record (update; the saved instance replaces the stored record with the same
id, whether or not any field actually changed), or delete an instance. -/
inductive Mutation where
  | create (r : PropertyRecord)
  | update (r : PropertyRecord)
  | delete (r : PropertyRecord)
  deriving DecidableEq

/-- One committed mutation together with its synchronous signal handler:
the store change is applied and then the corresponding handler fires,
before the mutation is considered complete.  The second component is the
number of cache-delete operations fired by the mutation's handlers. -/
def apply_mutation (s : SysState) (m : Mutation) : SysState × Nat :=
  match m with
  | .create r =>
      let (c', n) := invalidate_property_cache_on_save r true s.cache
      ({ store := s.store ++ [r], cache := c' }, n)
  | .update r =>
      let (c', n) := invalidate_property_cache_on_save r false s.cache
      ({ store := s.store.map (fun x => if x.id == r.id then r else x),
         cache := c' }, n)
  | .delete r =>
      let (c', n) := invalidate_property_cache_on_delete r s.cache
      ({ store := s.store.filter (fun x => x.id != r.id), cache := c' }, n)

/-- Run a sequence of mutations, each completing (store change plus
synchronous invalidation) before the next begins. -/
def run_mutations (s : SysState) (ms : List Mutation) : SysState :=
  ms.foldl (fun st m => (apply_mutation st m).1) s

/-- Round a rational to the nearest integer, ties to the even integer.
This is the rounding CPython's `round` applies to the (exact) decimal value
of its float argument. -/
def roundHalfEven (q : ℚ) : ℤ :=
  if q - ⌊q⌋ < 1/2 then ⌊q⌋
  else if q - ⌊q⌋ > 1/2 then ⌊q⌋ + 1
  else if ⌊q⌋ % 2 = 0 then ⌊q⌋ else ⌊q⌋ + 1

/-- Python's `round(x, 2)`: round-half-even at two decimal places, here on
exact rationals.  This agrees with the source's float computation whenever
that computation is exact in binary floating point, which is the case at
every input the theorems below evaluate it at (e.g. 1250/1600*100 = 78.125
is exactly representable, as are 0.0 and the operands producing them). -/
def round2 (q : ℚ) : ℚ := (roundHalfEven (q * 100) : ℚ) / 100

/-- The `keyspace_hits` / `keyspace_misses` counters read from the cache
backend's `INFO stats` introspection interface. -/
structure RedisStats where
  keyspace_hits : Nat
  keyspace_misses : Nat
  deriving DecidableEq

/-- The ways reading the introspection interface can fail in the source:
an `ImportError` (django-redis missing or misconfigured) or any other
exception, carrying its message. -/
inductive RedisFailure where
  | importError (msg : String)
  | otherError (msg : String)
  deriving DecidableEq

/-- The structured result dictionary of `get_redis_cache_metrics`. -/
structure CacheMetrics where
  keyspace_hits : Nat
  keyspace_misses : Nat
  total_requests : Nat
  hit_ratio : ℚ
  status : String
  error : Option String
  deriving DecidableEq

/-- Embedding of `get_redis_cache_metrics` (`properties/utils.py`).  Its
input is the outcome of reading the backend's `INFO stats`: on success it
derives `total_requests` and the rounded `hit_ratio` (0.0 when no requests
were recorded); on any failure it returns the structured error dictionary
of the corresponding `except` branch instead of raising. -/
def get_redis_cache_metrics (info : Except RedisFailure RedisStats) :
    CacheMetrics :=
  match info with
  | .ok s =>
      let total_requests := s.keyspace_hits + s.keyspace_misses
      let hit_ratio : ℚ :=
        if total_requests > 0 then
          ((s.keyspace_hits : ℚ) / (total_requests : ℚ)) * 100
        else 0
      { keyspace_hits := s.keyspace_hits,
        keyspace_misses := s.keyspace_misses,
        total_requests := total_requests,
        hit_ratio := round2 hit_ratio,
        status := "success",
        error := none }
  | .error (.importError _) =>
      { keyspace_hits := 0, keyspace_misses := 0, total_requests := 0,
        hit_ratio := 0, status := "error",
        error := some "django-redis is not properly installed or configured" }
  | .error (.otherError msg) =>
      { keyspace_hits := 0, keyspace_misses := 0, total_requests := 0,
        hit_ratio := 0, status := "error",
        error := some ("Failed to retrieve Redis cache metrics: " ++ msg) }

/-- A JSON value as far as the listing payload needs: strings, integers,
arrays of property projections. -/
inductive JsonVal where
  | str (s : String)
  | int (n : Nat)
  | arr (ps : List PropProjection)
  deriving DecidableEq

/-- Result of one `property_list` request: the JSON payload as an ordered
list of key/value pairs, plus the `get_all_properties` call it performed
(carrying the cache state afterwards and the effect counters).  The
source's initial `Property.objects.all().values(...)` assignment is a lazy
queryset that is rebound before ever being evaluated, so it performs no
store read and does not affect the payload. -/
def property_list (c : Cache) (store : List PropertyRecord) :
    List (String × JsonVal) × GetResult :=
  let r := get_all_properties c store
  ([("status", .str "success"),
    ("count", .int r.result.length),
    ("data", .arr r.result),
    ("cache_info",
      .str "Data cached in Redis for 1 hour via get_all_properties()")], r)

/-- A cache backend that may be unavailable, together with its key space.
Used to state fail-open behaviour of the read path. -/
structure CacheBackend where
  healthy : Bool
  entries : Cache
  deriving DecidableEq

/-- Modelled from the spec: the project settings module (which configures
the Django cache backend's behaviour on backend failure) is absent from
the sources.  Per the spec, "Cache Backend unavailability on read should
be treated as a cache miss (fail open to the Record Store)": a `get`
against an unavailable backend yields absent instead of raising. -/
def backend_get (b : CacheBackend) (k : String) : Option CacheVal :=
  if b.healthy then cache_get b.entries k else none

/-- Modelled from the spec: a `set` against an unavailable backend is
dropped (fail open); against a healthy backend it stores as usual. -/
def backend_set (b : CacheBackend) (k : String) (v : CacheVal) (ttl : Nat) :
    CacheBackend :=
  if b.healthy then { b with entries := cache_set b.entries k v ttl } else b

/-- Result of `get_all_properties` run against a possibly-unavailable
backend. -/
structure GetResultB where
  result : CacheVal
  backend : CacheBackend
  store_reads : Nat
  cache_writes : Nat
  deriving DecidableEq

/-- `get_all_properties` with its cache calls going through the
possibly-unavailable backend: the same control flow as
`get_all_properties`, with `cache.get`/`cache.set` replaced by the
spec-modelled fallible operations. -/
def get_all_properties_b (b : CacheBackend) (store : List PropertyRecord) :
    GetResultB :=
  match backend_get b "all_properties" with
  | some properties =>
      { result := properties, backend := b, store_reads := 0, cache_writes := 0 }
  | none =>
      let properties := store.map project
      { result := properties,
        backend := backend_set b "all_properties" properties 3600,
        store_reads := 1, cache_writes := 1 }

/-- A concrete Property Record (the instance created in
`test_cache_invalidation.py`), used to instantiate theorems. -/
def sampleRecord : PropertyRecord :=
  { id := 1, title := "Luxury Villa with Pool",
    description := "Stunning villa with infinity pool and ocean views",
    price := 2500000, location := "Santorini", created_at := 100 }

theorem cache_get_set_self (c : Cache) (k : String) (v : CacheVal) (ttl : Nat) :
    cache_get (cache_set c k v ttl) k = some v := by
  simp [cache_get, cache_set]

theorem cache_get_delete_self (c : Cache) (k : String) :
    cache_get (cache_delete c k) k = none := by
  induction c with
  | nil => rfl
  | cons e rest ih =>
    obtain ⟨k', v, ttl⟩ := e
    by_cases h : k' = k
    · simpa [cache_delete, h] using ih
    · simpa [cache_delete, cache_get, h] using ih

theorem cache_delete_of_absent (c : Cache) (k : String)
    (h : cache_get c k = none) : cache_delete c k = c := by
  induction c with
  | nil => rfl
  | cons e rest ih =>
    obtain ⟨k', v, ttl⟩ := e
    by_cases hk : k' = k
    · simp [cache_get, hk] at h
    · simp [cache_get, hk] at h
      simp [cache_delete, hk, ih h]

theorem get_all_properties_hit_eq (c : Cache) (store : List PropertyRecord)
    (v : CacheVal) (hv : cache_get c "all_properties" = some v) :
    get_all_properties c store =
      { result := v, cache := c, store_reads := 0, cache_writes := 0 } := by
  simp [get_all_properties, hv]

theorem get_all_properties_miss_eq (c : Cache) (store : List PropertyRecord)
    (h : cache_get c "all_properties" = none) :
    get_all_properties c store =
      { result := store.map project,
        cache := cache_set c "all_properties" (store.map project) 3600,
        store_reads := 1, cache_writes := 1 } := by
  simp [get_all_properties, h]

theorem apply_mutation_fires_once (s : SysState) (m : Mutation) :
    (apply_mutation s m).2 = 1 := by
  cases m <;> rfl

theorem apply_mutation_absent (s : SysState) (m : Mutation) :
    cache_get (apply_mutation s m).1.cache "all_properties" = none := by
  cases m <;>
    simp [apply_mutation, invalidate_property_cache_on_save,
      invalidate_property_cache_on_delete, cache_get_delete_self]

theorem run_mutations_absent (s : SysState) (ms : List Mutation)
    (h : ms ≠ []) :
    cache_get (run_mutations s ms).cache "all_properties" = none := by
  induction ms generalizing s with
  | nil => exact absurd rfl h
  | cons m rest ih =>
    cases rest with
    | nil => exact apply_mutation_absent s m
    | cons m2 rest2 => exact ih (apply_mutation s m).1 (by simp)

/-- C1: every committed mutation (create, update or delete) synchronously
fires exactly one deletion of the `all_properties` key, unconditionally of
which fields changed, and the key is absent in the resulting state; hence
after any nonempty sequence of mutations completes (and before any read
repopulates it) the key is absent. -/
theorem mutation_invalidation :
    (∀ (s : SysState) (m : Mutation),
      (apply_mutation s m).2 = 1 ∧
      cache_get (apply_mutation s m).1.cache "all_properties" = none) ∧
    (∀ (s : SysState) (ms : List Mutation), ms ≠ [] →
      cache_get (run_mutations s ms).cache "all_properties" = none) :=
  ⟨fun s m => ⟨apply_mutation_fires_once s m, apply_mutation_absent s m⟩,
   fun s ms h => run_mutations_absent s ms h⟩

theorem mutation_invalidation_witness :
    cache_get (run_mutations ⟨[], []⟩
      [Mutation.create sampleRecord, Mutation.update sampleRecord,
       Mutation.delete sampleRecord]).cache "all_properties" = none :=
  mutation_invalidation.2 ⟨[], []⟩ _ (by simp)

/-- C2: on a cache miss, `get_all_properties` returns the projection of the
whole store (matching it in length and field values), and stores exactly
that sequence under `all_properties` with a TTL of 3600 seconds, having
performed one store read. -/
theorem get_all_properties_miss (c : Cache) (store : List PropertyRecord)
    (h : cache_get c "all_properties" = none) :
    (get_all_properties c store).result = store.map project ∧
    (get_all_properties c store).result.length = store.length ∧
    (get_all_properties c store).cache.head? =
      some ("all_properties", store.map project, 3600) ∧
    cache_get (get_all_properties c store).cache "all_properties" =
      some (store.map project) ∧
    (get_all_properties c store).store_reads = 1 := by
  rw [get_all_properties_miss_eq c store h]
  exact ⟨rfl, by simp, rfl, cache_get_set_self c "all_properties" _ 3600, rfl⟩

theorem get_all_properties_miss_witness :
    cache_get [] "all_properties" = none ∧
    (get_all_properties [] [sampleRecord]).result = [project sampleRecord] :=
  ⟨rfl, (get_all_properties_miss [] [sampleRecord] rfl).1⟩

/-- C3: on a cache hit, `get_all_properties` returns the stored snapshot
unchanged, performs no store read and no cache write, and leaves the cache
unchanged; on a miss it performs exactly one cache write. -/
theorem get_all_properties_frame (c : Cache) (store : List PropertyRecord) :
    (∀ v, cache_get c "all_properties" = some v →
      (get_all_properties c store).result = v ∧
      (get_all_properties c store).cache = c ∧
      (get_all_properties c store).store_reads = 0 ∧
      (get_all_properties c store).cache_writes = 0) ∧
    (cache_get c "all_properties" = none →
      (get_all_properties c store).cache_writes = 1) := by
  constructor
  · intro v hv
    rw [get_all_properties_hit_eq c store v hv]
    exact ⟨rfl, rfl, rfl, rfl⟩
  · intro h
    rw [get_all_properties_miss_eq c store h]

theorem get_all_properties_frame_witness :
    cache_get [("all_properties", [project sampleRecord], 3600)]
      "all_properties" = some [project sampleRecord] ∧
    (get_all_properties [("all_properties", [project sampleRecord], 3600)]
      []).result = [project sampleRecord] ∧
    (get_all_properties [("all_properties", [project sampleRecord], 3600)]
      []).store_reads = 0 ∧
    (get_all_properties [] []).cache_writes = 1 :=
  ⟨rfl,
   ((get_all_properties_frame [("all_properties", [project sampleRecord], 3600)]
      []).1 [project sampleRecord] rfl).1,
   ((get_all_properties_frame [("all_properties", [project sampleRecord], 3600)]
      []).1 [project sampleRecord] rfl).2.2.1,
   (get_all_properties_frame [] []).2 rfl⟩

/-- C4: against an unavailable cache backend the read is treated as a miss
(fail open): `get_all_properties` still serves the projection of the store
(one store read) instead of propagating a cache error. -/
theorem get_all_properties_fail_open (b : CacheBackend)
    (store : List PropertyRecord) (h : b.healthy = false) :
    (get_all_properties_b b store).result = store.map project ∧
    (get_all_properties_b b store).store_reads = 1 := by
  simp [get_all_properties_b, backend_get, h]

theorem get_all_properties_fail_open_witness :
    (CacheBackend.mk false [("all_properties", [], 3600)]).healthy = false ∧
    (get_all_properties_b ⟨false, [("all_properties", [], 3600)]⟩
      [sampleRecord]).result = [project sampleRecord] :=
  ⟨rfl,
   (get_all_properties_fail_open ⟨false, [("all_properties", [], 3600)]⟩
      [sampleRecord] rfl).1⟩

/-- C8: deleting the `all_properties` key when it is already absent is a
no-op: the cache state is unchanged (and the operation is total, so no
error is raised); in particular both signal handlers leave such a cache
unchanged. -/
theorem invalidation_idempotent_on_absent (c : Cache)
    (h : cache_get c "all_properties" = none) :
    cache_delete c "all_properties" = c ∧
    (∀ (r : PropertyRecord) (b : Bool),
      (invalidate_property_cache_on_save r b c).1 = c) ∧
    (∀ (r : PropertyRecord),
      (invalidate_property_cache_on_delete r c).1 = c) :=
  ⟨cache_delete_of_absent c "all_properties" h,
   fun r b => cache_delete_of_absent c "all_properties" h,
   fun r => cache_delete_of_absent c "all_properties" h⟩

theorem invalidation_idempotent_on_absent_witness :
    cache_get [("other_key", [], 7)] "all_properties" = none ∧
    cache_delete [("other_key", [], 7)] "all_properties" =
      [("other_key", [], 7)] :=
  ⟨rfl, (invalidation_idempotent_on_absent [("other_key", [], 7)] rfl).1⟩

/-- C10: with an empty store, a miss caches the empty sequence under
`all_properties`; since presence is tested by not-None, the cached empty
list is a hit, so every subsequent call (against any store contents) reads
nothing from the store, writes nothing, returns the empty sequence, and
leaves the cache unchanged. -/
theorem empty_store_cached_empty (c : Cache)
    (h : cache_get c "all_properties" = none) :
    (get_all_properties c []).result = [] ∧
    cache_get (get_all_properties c []).cache "all_properties" = some [] ∧
    ∀ store2 : List PropertyRecord,
      (get_all_properties (get_all_properties c []).cache store2).result
        = [] ∧
      (get_all_properties (get_all_properties c []).cache store2).store_reads
        = 0 ∧
      (get_all_properties (get_all_properties c []).cache store2).cache_writes
        = 0 ∧
      (get_all_properties (get_all_properties c []).cache store2).cache
        = (get_all_properties c []).cache := by
  have hm := get_all_properties_miss_eq c [] h
  have h1 : cache_get (get_all_properties c []).cache "all_properties"
      = some [] := by
    rw [hm]
    simpa using cache_get_set_self c "all_properties" [] 3600
  refine ⟨by rw [hm]; simp, h1, fun store2 => ?_⟩
  rw [get_all_properties_hit_eq _ store2 [] h1]
  exact ⟨rfl, rfl, rfl, rfl⟩

theorem empty_store_cached_empty_witness :
    cache_get [] "all_properties" = none ∧
    cache_get (get_all_properties [] []).cache "all_properties" = some [] ∧
    (get_all_properties (get_all_properties [] []).cache
      [sampleRecord]).result = [] :=
  ⟨rfl, (empty_store_cached_empty [] rfl).2.1,
   ((empty_store_cached_empty [] rfl).2.2 [sampleRecord]).1⟩

theorem hit_ratio_1250_350 :
    (get_redis_cache_metrics (Except.ok ⟨1250, 350⟩)).hit_ratio
      = 7812 / 100 := by
  have h0 : (get_redis_cache_metrics (Except.ok ⟨1250, 350⟩)).hit_ratio
      = round2 ((1250 : ℚ) / 1600 * 100) := by
    simp [get_redis_cache_metrics]
  have h1 : ((1250 : ℚ) / 1600 * 100) * 100 = 15625 / 2 := by norm_num
  have h2 : (⌊(15625 : ℚ) / 2⌋ : ℤ) = 7812 := by
    rw [Int.floor_eq_iff] <;> norm_num
  rw [h0]
  simp only [round2, roundHalfEven, h1, h2]
  norm_num

/-- C5 counterexample: with backend counters hits=1250, misses=350 the code
computes `round(78.125, 2)`, which is round-half-even and yields 78.12, so
the metrics result's hit ratio is not 78.13 as claimed. -/
theorem cache_metrics_1250_350_not_78_13 :
    ¬ ((get_redis_cache_metrics (Except.ok ⟨1250, 350⟩)).total_requests = 1600
        ∧ (get_redis_cache_metrics (Except.ok ⟨1250, 350⟩)).hit_ratio
            = 7813 / 100) := by
  intro hco
  have h := hco.2
  rw [hit_ratio_1250_350] at h
  norm_num at h

/-- C5 (amended): with backend counters hits=1250, misses=350,
`get_redis_cache_metrics` returns total_requests=1600 and hit_ratio=78.12:
the exact ratio is 78.125 and Python's `round` (round-half-even) ties to
the even hundredth 78.12. -/
theorem cache_metrics_1250_350 :
    (get_redis_cache_metrics (Except.ok ⟨1250, 350⟩)).total_requests = 1600 ∧
    (get_redis_cache_metrics (Except.ok ⟨1250, 350⟩)).hit_ratio
      = 7812 / 100 :=
  ⟨rfl, hit_ratio_1250_350⟩

/-- C6: whatever failure reading the backend's introspection statistics
produces, `get_redis_cache_metrics` returns a structured result (it never
raises): hits, misses and total_requests are 0, hit_ratio is 0.0, status is
"error", and a nonempty human-readable error description is included. -/
theorem cache_metrics_error_result (f : RedisFailure) :
    (get_redis_cache_metrics (Except.error f)).keyspace_hits = 0 ∧
    (get_redis_cache_metrics (Except.error f)).keyspace_misses = 0 ∧
    (get_redis_cache_metrics (Except.error f)).total_requests = 0 ∧
    (get_redis_cache_metrics (Except.error f)).hit_ratio = 0 ∧
    (get_redis_cache_metrics (Except.error f)).status = "error" ∧
    ∃ e, (get_redis_cache_metrics (Except.error f)).error = some e ∧
      0 < e.length := by
  cases f with
  | importError msg =>
      exact ⟨rfl, rfl, rfl, rfl, rfl,
        "django-redis is not properly installed or configured", rfl,
        by decide⟩
  | otherError msg =>
      refine ⟨rfl, rfl, rfl, rfl, rfl,
        "Failed to retrieve Redis cache metrics: " ++ msg, rfl, ?_⟩
      have h : ("Failed to retrieve Redis cache metrics: " ++ msg).length
          = "Failed to retrieve Redis cache metrics: ".length + msg.length :=
        String.length_append _ _
      have h2 : 0 < "Failed to retrieve Redis cache metrics: ".length := by
        decide
      omega

/-- C7: with backend counters hits=0, misses=0, `get_redis_cache_metrics`
returns total_requests=0 and hit_ratio=0.0 (the ratio is defined to be 0
when no requests were recorded, not a division error). -/
theorem cache_metrics_zero_traffic :
    (get_redis_cache_metrics (Except.ok ⟨0, 0⟩)).total_requests = 0 ∧
    (get_redis_cache_metrics (Except.ok ⟨0, 0⟩)).hit_ratio = 0 := by
  refine ⟨rfl, ?_⟩
  have h0 : (get_redis_cache_metrics (Except.ok ⟨0, 0⟩)).hit_ratio
      = round2 0 := by
    simp [get_redis_cache_metrics]
  rw [h0]
  norm_num [round2, roundHalfEven]

/-- C9 counterexample: the listing payload is not exactly
{status, count, data}: at the empty state its key list is
["status", "count", "data", "cache_info"], which contains the extra key
"cache_info". -/
theorem property_list_payload_shape_counterexample :
    (property_list [] []).1.map Prod.fst
      = ["status", "count", "data", "cache_info"] ∧
    "cache_info" ∉ (["status", "count", "data"] : List String) :=
  ⟨rfl, by decide⟩

/-- C9 (amended): for every request the listing endpoint produces exactly
the payload {status: "success", count, data, cache_info}, where count
equals the number of elements of data, each element of data carries
exactly the fields {id, title, description, price, location, created_at}
(it is a `PropProjection`), and cache_info is a fixed informational
string. -/
theorem property_list_payload (c : Cache) (store : List PropertyRecord) :
    (property_list c store).1.map Prod.fst
      = ["status", "count", "data", "cache_info"] ∧
    (property_list c store).1.lookup "status"
      = some (JsonVal.str "success") ∧
    ∃ d : List PropProjection,
      (property_list c store).1.lookup "data" = some (JsonVal.arr d) ∧
      (property_list c store).1.lookup "count"
        = some (JsonVal.int d.length) ∧
      d = (get_all_properties c store).result := by
  refine ⟨rfl, ?_, (get_all_properties c store).result, ?_, ?_, rfl⟩ <;>
    simp [property_list, List.lookup]

end PropertyListings
